import Mathlib

/-!
# Verification of the LLM-Document-Chat RAG pipeline

A shallow embedding of the notebook `redis-openAI-doc-chat.ipynb` and of the
design-level pipeline components it exercises.  The notebook's own code
(environment plumbing, the Redis connection-string builder, the configuration
cell, the evaluation loop) is translated directly from the source.  Components
whose implementations live in external libraries (the chunker, vector store,
query engine and feedback evaluator, of which the notebook only holds callers)
are modelled from the specification and are marked `Modelled from the spec:`
in their doc comments.
-/

namespace DocChat

/-- The environment variables the notebook reads, each possibly unset.
`none` models an unset variable; `some s` a variable set to the string `s`. -/
structure Env where
  AZURE_API_BASE : Option String := none
  AZURE_API_VERSION : Option String := none
  AZURE_API_KEY : Option String := none
  AZURE_EMBEDDING_MODEL : Option String := none
  AZURE_TEXT_MODEL : Option String := none
  AZURE_EMBED_MODEL_DEPLOYMENT_NAME : Option String := none
  AZURE_TEXT_MODEL_DEPLOYMENT_NAME : Option String := none
  OPENAI_MAX_TOKENS : Option String := none
  CHUNK_SIZE : Option String := none
  CHUNK_OVERLAP : Option String := none
  REDIS_PASSWORD : Option String := none
  REDIS_USERNAME : Option String := none
  REDIS_HOST : Option String := none
  REDIS_PORT : Option String := none
deriving DecidableEq

/-- How a Python f-string renders the result of `os.getenv(name)`:
an unset variable is the value `None`, which prints as the text `None`. -/
def pyShow (o : Option String) : String :=
  match o with
  | none => "None"
  | some s => s

/-- Translation of the notebook's `format_redis_conn_from_env(using_ssl=False)`:
scheme from `using_ssl`, then `username:password@` iff `REDIS_PASSWORD` is set
(`REDIS_USERNAME` defaulting to the empty string), then `host:port` from
`REDIS_HOST`/`REDIS_PORT` rendered through the f-string. -/
def format_redis_conn_from_env (env : Env) (using_ssl : Bool := false) : String :=
  let start := if using_ssl then "rediss://" else "redis://"
  let password := env.REDIS_PASSWORD
  let username := (env.REDIS_USERNAME).getD ""
  let start1 :=
    match password with
    | some pw => start ++ (username ++ ":" ++ pw ++ "@")
    | none => start
  start1 ++ (pyShow env.REDIS_HOST ++ ":" ++ pyShow env.REDIS_PORT)

/-- The scheme part of the connection string, as the spec describes it:
the secure variant when TLS is on, the plain variant otherwise. -/
def schemeOf (use_tls : Bool) : String :=
  if use_tls then "rediss://" else "redis://"

/-- The credentials segment of the connection string: present exactly when
`REDIS_PASSWORD` is set, with the username defaulting to the empty string. -/
def credsOf (env : Env) : String :=
  match env.REDIS_PASSWORD with
  | some pw => (env.REDIS_USERNAME).getD "" ++ ":" ++ pw ++ "@"
  | none => ""

/-- The `host:port` tail of the connection string. -/
def hostPortOf (env : Env) : String :=
  pyShow env.REDIS_HOST ++ ":" ++ pyShow env.REDIS_PORT

theorem string_append_assoc (a b c : String) : a ++ b ++ c = a ++ (b ++ c) := by
  cases a with
  | mk da =>
    cases b with
    | mk db =>
      cases c with
      | mk dc =>
        show String.mk ((da ++ db) ++ dc) = String.mk (da ++ (db ++ dc))
        rw [List.append_assoc]

/-- **C1.** For every environment assignment (and either TLS setting), the
connection string built by `format_redis_conn_from_env` has the form
`scheme ++ [username:password@] ++ host:port`, and its scheme is the secure
variant `rediss://` exactly when TLS is enabled and the plain variant
`redis://` otherwise. -/
theorem conn_string_format (env : Env) (use_tls : Bool) :
    format_redis_conn_from_env env use_tls
      = schemeOf use_tls ++ (credsOf env ++ hostPortOf env)
    ∧ (schemeOf use_tls = "rediss://" ↔ use_tls = true)
    ∧ (schemeOf use_tls = "redis://" ↔ use_tls = false) := by
  refine ⟨?_, ?_, ?_⟩
  · cases hpw : env.REDIS_PASSWORD with
    | none =>
      simp only [format_redis_conn_from_env, schemeOf, credsOf, hostPortOf, hpw]
      cases use_tls <;> simp
    | some pw =>
      simp only [format_redis_conn_from_env, schemeOf, credsOf, hostPortOf, hpw]
      cases use_tls <;> simp [string_append_assoc]
  · cases use_tls <;> simp [schemeOf]
  · cases use_tls <;> simp [schemeOf]

/-- **C10.** The connection string contains a credentials segment iff
`REDIS_PASSWORD` is set: when it is unset the string is exactly
`scheme ++ host:port` (no credentials, even if `REDIS_USERNAME` is set);
when it is set with `REDIS_USERNAME` unset, the credentials segment is
`":password@"` (empty username). -/
theorem conn_string_credentials (env : Env) (use_tls : Bool) :
    (env.REDIS_PASSWORD = none →
      format_redis_conn_from_env env use_tls
        = schemeOf use_tls ++ hostPortOf env)
    ∧ (∀ pw, env.REDIS_PASSWORD = some pw →
        format_redis_conn_from_env env use_tls
          = schemeOf use_tls
              ++ (((env.REDIS_USERNAME).getD "" ++ ":" ++ pw ++ "@") ++ hostPortOf env))
    ∧ (∀ pw, env.REDIS_PASSWORD = some pw → env.REDIS_USERNAME = none →
        format_redis_conn_from_env env use_tls
          = schemeOf use_tls ++ ((":" ++ pw ++ "@") ++ hostPortOf env)) := by
  refine ⟨?_, ?_, ?_⟩
  · intro hpw
    simp only [format_redis_conn_from_env, schemeOf, hostPortOf, hpw]
  · intro pw hpw
    simp only [format_redis_conn_from_env, schemeOf, hostPortOf, hpw]
    cases use_tls <;> simp [string_append_assoc]
  · intro pw hpw hun
    simp only [format_redis_conn_from_env, schemeOf, hostPortOf, hpw, hun, Option.getD]
    cases use_tls <;> simp [string_append_assoc]

/-- Witness for C10 at a concrete environment: password set, username unset. -/
theorem conn_string_credentials_witness :
    ({ REDIS_PASSWORD := some "pw", REDIS_HOST := some "h",
       REDIS_PORT := some "6379" } : Env).REDIS_PASSWORD = some "pw"
    ∧ format_redis_conn_from_env
        { REDIS_PASSWORD := some "pw", REDIS_HOST := some "h",
          REDIS_PORT := some "6379" } false
        = schemeOf false ++ ((":" ++ "pw" ++ "@")
            ++ hostPortOf { REDIS_PASSWORD := some "pw", REDIS_HOST := some "h",
                            REDIS_PORT := some "6379" }) :=
  ⟨rfl,
    (conn_string_credentials
      { REDIS_PASSWORD := some "pw", REDIS_HOST := some "h",
        REDIS_PORT := some "6379" } false).2.2 "pw" rfl rfl⟩

/-- Errors: the spec's error taxonomy together with the Python built-in
exceptions the notebook code can actually raise (`int(None)`/`float(None)`
raise `TypeError`; `int("x")`/`float("x")` raise `ValueError`). -/
inductive PipelineError where
  | typeError
  | valueError
  | configurationError
  | transientProviderError
  | fatalProviderError
  | dimensionMismatchError
  | indexExistsError
  | storeUnavailableError
  | invalidQueryError
  | invalidArgumentError
  | answerGenerationError
  | evaluationError
deriving DecidableEq, Repr

/-- Simplified model of Python integer-literal acceptance: an optional sign
followed by at least one digit (whitespace stripping and underscores are not
modelled; no claim depends on them). -/
def isIntLit (s : String) : Bool :=
  match s.data with
  | [] => false
  | c :: cs =>
    let body := if c = '-' || c = '+' then cs else c :: cs
    !body.isEmpty && body.all Char.isDigit

/-- The numeric value of a digit string. -/
def digitsVal (cs : List Char) : Nat :=
  cs.foldl (fun n c => n * 10 + (c.toNat - 48)) 0

/-- The integer value of an accepted integer literal. -/
def intValue (s : String) : Int :=
  match s.data with
  | '-' :: cs => -(digitsVal cs : Int)
  | '+' :: cs => (digitsVal cs : Int)
  | cs => (digitsVal cs : Int)

/-- Python's `int(os.getenv(name))`: `TypeError` when the variable is unset
(`int(None)`), `ValueError` when it is not an integer literal. -/
def pyInt (o : Option String) : Except PipelineError Int :=
  match o with
  | none => .error .typeError
  | some s => if isIntLit s then .ok (intValue s) else .error .valueError

/-- Simplified model of Python float-literal acceptance: an optional sign,
then digits with at most one decimal point and at least one digit (exponent
forms and `inf`/`nan` are not modelled; no claim depends on them). -/
def isFloatLit (s : String) : Bool :=
  match s.data with
  | [] => false
  | c :: cs =>
    let body := if c = '-' || c = '+' then cs else c :: cs
    body.any Char.isDigit
      && body.all (fun d => d.isDigit || d = '.')
      && decide ((body.filter (fun d => d = '.')).length ≤ 1)

/-- Python's `float(os.getenv(name))`: `TypeError` when the variable is unset
(`float(None)`), `ValueError` when it is not a float literal.  The numeric
value is kept as the accepted literal string (the notebook only forwards it
to the library's `PromptHelper`). -/
def pyFloat (o : Option String) : Except PipelineError String :=
  match o with
  | none => .error .typeError
  | some s => if isFloatLit s then .ok s else .error .valueError

/-- The pipeline steps of a notebook run, in the order the cells execute
them: loading documents (text extraction), building the index (chunking,
embedding and indexing), and querying. -/
inductive Step where
  | loadDocuments
  | buildIndex
  | runQuery
deriving DecidableEq, Repr

/-- The notebook's cells in execution order, with the external provider
calls assumed to succeed: cell 8 loads the documents, cell 10 reads
`OPENAI_MAX_TOKENS`/`CHUNK_SIZE` with `int()` and `CHUNK_OVERLAP` with
`float()`, and only then do the indexing cell and the query cells run.
Returns the pipeline steps executed, and the error that stopped the run,
if any. -/
def notebookRun (env : Env) : List Step × Option PipelineError :=
  -- cells 5-6 read the Azure variables and construct the clients; an unset
  -- Azure variable is passed through as None and raises nothing here.
  -- cell 8:
  let steps := [Step.loadDocuments]
  -- cell 10:
  match pyInt env.OPENAI_MAX_TOKENS with
  | .error e => (steps, some e)
  | .ok _ =>
    match pyInt env.CHUNK_SIZE with
    | .error e => (steps, some e)
    | .ok _ =>
      match pyFloat env.CHUNK_OVERLAP with
      | .error e => (steps, some e)
      | .ok _ =>
        -- cells 13-15 build the connection string and the index,
        -- cells 17-19 run the queries.
        (steps ++ [Step.buildIndex, Step.runQuery], none)

/-- `true` iff the variable, when set, holds a valid integer literal. -/
def intOkIfSet (o : Option String) : Bool :=
  match o with
  | none => true
  | some s => isIntLit s

/-- **C2 (counterexample).** With `OPENAI_MAX_TOKENS` unset (all other
variables unset too), the run does not fail with `ConfigurationError`
before any pipeline step: it fails with `TypeError`, and the
document-loading pipeline step has already executed. -/
theorem missing_config_counterexample :
    (notebookRun {}).2 ≠ some PipelineError.configurationError
    ∧ (notebookRun {}).2 = some PipelineError.typeError
    ∧ Step.loadDocuments ∈ (notebookRun {}).1 := by
  refine ⟨?_, rfl, ?_⟩ <;> simp [notebookRun, pyInt]

/-- **C2 (amended).** For every run in which one of the required keys
`OPENAI_MAX_TOKENS`, `CHUNK_SIZE`, `CHUNK_OVERLAP` is missing from the
environment (and the ones present among the first two hold valid integer
literals), the program fails with `TypeError` at the configuration cell:
document loading has already executed, but no chunking, embedding, indexing
or querying step runs. -/
theorem missing_config_fails (env : Env)
    (hmiss : env.OPENAI_MAX_TOKENS = none ∨ env.CHUNK_SIZE = none
      ∨ env.CHUNK_OVERLAP = none)
    (h1 : intOkIfSet env.OPENAI_MAX_TOKENS = true)
    (h2 : intOkIfSet env.CHUNK_SIZE = true) :
    notebookRun env = ([Step.loadDocuments], some PipelineError.typeError) := by
  rcases hmiss with hm | hm | hm
  · simp [notebookRun, pyInt, hm]
  · cases ho : env.OPENAI_MAX_TOKENS with
    | none => simp [notebookRun, pyInt, ho]
    | some s =>
      rw [ho] at h1
      simp only [intOkIfSet] at h1
      simp [notebookRun, pyInt, ho, h1, hm]
  · cases ho : env.OPENAI_MAX_TOKENS with
    | none => simp [notebookRun, pyInt, ho]
    | some s =>
      rw [ho] at h1
      simp only [intOkIfSet] at h1
      cases hc : env.CHUNK_SIZE with
      | none => simp [notebookRun, pyInt, ho, h1, hc]
      | some t =>
        rw [hc] at h2
        simp only [intOkIfSet] at h2
        simp [notebookRun, pyInt, pyFloat, ho, h1, hc, h2, hm]

/-- Witness for the amended C2 at a concrete environment missing
`CHUNK_OVERLAP` only. -/
theorem missing_config_fails_witness :
    (({ OPENAI_MAX_TOKENS := some "512", CHUNK_SIZE := some "1024" } : Env).CHUNK_OVERLAP
        = none)
    ∧ notebookRun { OPENAI_MAX_TOKENS := some "512", CHUNK_SIZE := some "1024" }
        = ([Step.loadDocuments], some PipelineError.typeError) :=
  ⟨rfl,
    missing_config_fails
      { OPENAI_MAX_TOKENS := some "512", CHUNK_SIZE := some "1024" }
      (Or.inr (Or.inr rfl)) (by decide) (by decide)⟩

/-- The Chunker's configuration: maximum chunk size and overlap, in size
units (tokens or characters, consistently defined). -/
structure ChunkConfig where
  max_chunk_size : Nat
  chunk_overlap : Nat
deriving DecidableEq, Repr

/-- Modelled from the spec: the chunk sequence over a document's text (the
chunking implementation lives in the llama_index library, not in this
repository).  Successive chunks start `max_chunk_size - chunk_overlap`
units apart, so consecutive chunks overlap by exactly `chunk_overlap`; the
last chunk is whatever remains once it fits.  The degenerate guard
`size ≤ overlap` only ensures termination; `Chunker.chunk` rejects such
configurations before ever reaching it. -/
def chunkify (size overlap : Nat) (text : List α) : List (List α) :=
  if text.length ≤ size ∨ size ≤ overlap then [text]
  else text.take size :: chunkify size overlap (text.drop (size - overlap))
termination_by text.length
decreasing_by
  rename_i hcond
  push_neg at hcond
  simp only [List.length_drop]
  exact Nat.sub_lt (Nat.lt_of_lt_of_le (Nat.lt_of_le_of_lt (Nat.zero_le _) hcond.2)
    (Nat.le_of_lt hcond.1)) (Nat.sub_pos_of_lt hcond.2)

/-- Modelled from the spec: the Chunker.  Fails with `ConfigurationError`
if `chunk_overlap >= max_chunk_size`; otherwise it is a pure function of
the document text and the configuration. -/
def Chunker.chunk (cfg : ChunkConfig) (text : List α) :
    Except PipelineError (List (List α)) :=
  if cfg.max_chunk_size ≤ cfg.chunk_overlap then .error .configurationError
  else .ok (chunkify cfg.max_chunk_size cfg.chunk_overlap text)

/-- Concatenation of the chunk texts with the overlapped portions removed:
the first chunk in full, every later chunk with its first `overlap` units
dropped. -/
def reassemble (overlap : Nat) : List (List α) → List α
  | [] => []
  | c :: rest => c ++ (rest.map (fun d => d.drop overlap)).flatten

/-- **C3.** A chunk configuration fails with `ConfigurationError` exactly
when `chunk_overlap ≥ max_chunk_size`, and succeeds exactly when
`chunk_overlap < max_chunk_size`. -/
theorem chunker_config_validation (cfg : ChunkConfig) (text : List Char) :
    (cfg.max_chunk_size ≤ cfg.chunk_overlap
      ↔ Chunker.chunk cfg text = .error .configurationError)
    ∧ (cfg.chunk_overlap < cfg.max_chunk_size
      ↔ ∃ cs, Chunker.chunk cfg text = .ok cs) := by
  constructor
  · constructor
    · intro h
      simp [Chunker.chunk, h]
    · intro h
      by_contra hlt
      simp [Chunker.chunk, hlt] at h
  · constructor
    · intro h
      have hnle : ¬ cfg.max_chunk_size ≤ cfg.chunk_overlap := Nat.not_le_of_lt h
      exact ⟨chunkify cfg.max_chunk_size cfg.chunk_overlap text,
        by simp [Chunker.chunk, hnle]⟩
    · rintro ⟨cs, hcs⟩
      by_contra hge
      push_neg at hge
      simp [Chunker.chunk, hge] at hcs

theorem flatten_drop_chunkify {α : Type} (size overlap : Nat) (l : List α) :
    ((chunkify size overlap l).map (fun c => c.drop overlap)).flatten
      = l.drop overlap := by
  induction l using chunkify.induct size overlap with
  | case1 l hcond =>
    rw [chunkify.eq_def, if_pos hcond]
    simp
  | case2 l hcond ih =>
    rw [chunkify.eq_def, if_neg hcond]
    push_neg at hcond
    simp only [List.map_cons, List.flatten_cons, ih]
    rw [List.drop_take]
    have hdd : List.drop overlap (List.drop (size - overlap) l)
        = List.drop (size - overlap) (List.drop overlap l) := by
      rw [List.drop_drop, List.drop_drop, Nat.add_comm]
    rw [hdd]
    exact List.take_append_drop _ _

/-- **C6.** For every document text and every valid chunk configuration
(`chunk_overlap < max_chunk_size`), the Chunker succeeds and produces an
ordered sequence of chunks whose concatenation, with the overlapped
portions removed, reconstructs the document's full text exactly. -/
theorem chunker_roundtrip {α : Type} (cfg : ChunkConfig) (text : List α)
    (h : cfg.chunk_overlap < cfg.max_chunk_size) :
    ∃ cs, Chunker.chunk cfg text = .ok cs
      ∧ reassemble cfg.chunk_overlap cs = text := by
  have hnle : ¬ cfg.max_chunk_size ≤ cfg.chunk_overlap := Nat.not_le_of_lt h
  refine ⟨chunkify cfg.max_chunk_size cfg.chunk_overlap text,
    by simp [Chunker.chunk, hnle], ?_⟩
  rw [chunkify.eq_def]
  split
  · simp [reassemble]
  · rename_i hcond
    push_neg at hcond
    simp only [reassemble, flatten_drop_chunkify]
    rw [List.drop_drop, Nat.sub_add_cancel (Nat.le_of_lt h)]
    exact List.take_append_drop _ _

/-- Witness for C6 at a concrete document and configuration. -/
theorem chunker_roundtrip_witness :
    ((⟨3, 1⟩ : ChunkConfig).chunk_overlap < (⟨3, 1⟩ : ChunkConfig).max_chunk_size)
    ∧ ∃ cs, Chunker.chunk (⟨3, 1⟩ : ChunkConfig) [0, 1, 2, 3, 4] = .ok cs
        ∧ reassemble 1 cs = [0, 1, 2, 3, 4] :=
  ⟨by decide, chunker_roundtrip ⟨3, 1⟩ [0, 1, 2, 3, 4] (by decide)⟩

/-- An Index Entry: chunk provenance plus its embedding vector.  Scores and
vector components are rationals (the shallow embedding of the store's
floating-point arithmetic). -/
structure IndexEntry where
  doc_id : Nat
  chunk_id : Nat
  text : String
  vec : List ℚ
deriving DecidableEq

/-- Inner-product similarity (the spec fixes cosine or inner-product per
index; inner product is the modelled choice). -/
def dot (v w : List ℚ) : ℚ :=
  (List.zipWith (fun a b => a * b) v w).sum

/-- Ranking relation on scored entries: descending similarity score. -/
def byScore (a b : IndexEntry × ℚ) : Prop := b.2 ≤ a.2

instance : DecidableRel byScore :=
  fun a b => inferInstanceAs (Decidable (b.2 ≤ a.2))

instance : IsTotal (IndexEntry × ℚ) byScore :=
  ⟨fun a b => le_total b.2 a.2⟩

instance : IsTrans (IndexEntry × ℚ) byScore :=
  ⟨fun _ _ _ hab hbc => le_trans hbc hab⟩

/-- Modelled from the spec: the Vector Store's `search(query_vector, top_k)`
(the store implementation lives in the Redis vector-store library, not in
this repository).  Fails with `InvalidArgumentError` when `top_k < 1`;
otherwise scores every entry, ranks by descending similarity (stable, so
ties keep insertion order) and returns the first `top_k`. -/
def VectorStore.search (entries : List IndexEntry) (v : List ℚ) (top_k : Int) :
    Except PipelineError (List (IndexEntry × ℚ)) :=
  if top_k < 1 then .error .invalidArgumentError
  else
    let scored := entries.map (fun e => (e, dot e.vec v))
    .ok ((List.insertionSort byScore scored).take top_k.toNat)

/-- **C4.** `search(v, k)` fails with `InvalidArgumentError` whenever `k < 1`;
otherwise it returns at most `k` entries with similarity scores in
non-increasing order, and its result length is `min k (index size)`, so it
returns fewer than `k` entries only when the index holds fewer. -/
theorem search_spec (entries : List IndexEntry) (v : List ℚ) (top_k : Int) :
    (top_k < 1 → VectorStore.search entries v top_k = .error .invalidArgumentError)
    ∧ (1 ≤ top_k → ∃ res, VectorStore.search entries v top_k = .ok res
        ∧ res.length ≤ top_k.toNat
        ∧ res.length = min top_k.toNat entries.length
        ∧ List.Sorted byScore res) := by
  constructor
  · intro h
    simp [VectorStore.search, h]
  · intro h
    have hn : ¬ top_k < 1 := not_lt.mpr h
    refine ⟨(List.insertionSort byScore
        (entries.map (fun e => (e, dot e.vec v)))).take top_k.toNat,
      by simp [VectorStore.search, hn], ?_, ?_, ?_⟩
    · simp [List.length_take]
    · simp [List.length_take, List.length_insertionSort]
    · exact List.Pairwise.sublist (List.take_sublist _ _)
        (List.sorted_insertionSort byScore _)

/-- Witness for C4: a two-entry index searched with `k = 1`. -/
theorem search_spec_witness :
    (1 : Int) ≤ 1
    ∧ ∃ res,
        VectorStore.search
          [⟨0, 0, "a", [1]⟩, ⟨0, 1, "b", [2]⟩] [1] 1 = .ok res
        ∧ res.length ≤ (1 : Int).toNat
        ∧ res.length = min (1 : Int).toNat
            ([⟨0, 0, "a", [1]⟩, (⟨0, 1, "b", [2]⟩ : IndexEntry)].length)
        ∧ List.Sorted byScore res :=
  ⟨by decide, (search_spec [⟨0, 0, "a", [1]⟩, ⟨0, 1, "b", [2]⟩] [1] 1).2 (by decide)⟩

/-- The name and vector dimension of a created index. -/
structure IndexMeta where
  name : String
  dim : Nat
deriving DecidableEq

/-- The Vector Store's state: the created indexes and the stored entries,
each entry under a Redis key (the key carries the configured key prefix). -/
structure StoreState where
  indexes : List IndexMeta
  entries : List (String × String)
deriving DecidableEq

/-- Whether an index with the given name exists. -/
def StoreState.hasIndex (st : StoreState) (name : String) : Bool :=
  st.indexes.any (fun m => m.name = name)

/-- Modelled from the spec: the Vector Store's
`create_index(name, prefix, dimension, overwrite)` (the store implementation
lives in the Redis vector-store library, not in this repository).  On an
existing index with `overwrite`, every entry under the key prefix is deleted
and the index is recreated with the given dimension; without `overwrite` it
fails with `IndexExistsError`; on a fresh name it is created. -/
def createIndex (st : StoreState) (name keyPre : String) (dim : Nat)
    (overwrite : Bool) : Except PipelineError StoreState :=
  if st.hasIndex name then
    if overwrite then
      .ok { indexes := ⟨name, dim⟩ :: st.indexes.filter (fun m => m.name ≠ name),
            entries := st.entries.filter (fun kv => !(keyPre.isPrefixOf kv.1)) }
    else .error .indexExistsError
  else
    .ok { indexes := ⟨name, dim⟩ :: st.indexes, entries := st.entries }

/-- **C5.** On an existing index, `create_index` with `overwrite = true`
succeeds and leaves zero entries under the index's key prefix (every
surviving entry was already present and is outside the prefix), while
`overwrite = false` fails with `IndexExistsError`. -/
theorem create_index_overwrite (st : StoreState) (name keyPre : String)
    (dim : Nat) (hex : st.hasIndex name = true) :
    (∃ st', createIndex st name keyPre dim true = .ok st'
      ∧ (∀ kv ∈ st'.entries, keyPre.isPrefixOf kv.1 = false)
      ∧ (∀ kv ∈ st'.entries, kv ∈ st.entries)
      ∧ st'.hasIndex name = true)
    ∧ createIndex st name keyPre dim false = .error .indexExistsError := by
  constructor
  · refine ⟨{ indexes := ⟨name, dim⟩ :: st.indexes.filter (fun m => m.name ≠ name),
              entries := st.entries.filter (fun kv => !(keyPre.isPrefixOf kv.1)) },
      by simp [createIndex, hex], ?_, ?_, ?_⟩
    · intro kv hkv
      have := List.of_mem_filter hkv
      simpa using this
    · intro kv hkv
      exact List.mem_of_mem_filter hkv
    · simp [StoreState.hasIndex]
  · simp [createIndex, hex]

/-- Witness for C5: a store holding the index `chevy_docs` with one entry
under the prefix `blog` and one outside it. -/
theorem create_index_overwrite_witness :
    ({ indexes := [⟨"chevy_docs", 1536⟩],
       entries := [("blog:1", "x"), ("other:1", "y")] } : StoreState).hasIndex
        "chevy_docs" = true
    ∧ ((∃ st', createIndex
          { indexes := [⟨"chevy_docs", 1536⟩],
            entries := [("blog:1", "x"), ("other:1", "y")] }
          "chevy_docs" "blog" 1536 true = .ok st'
        ∧ (∀ kv ∈ st'.entries, ("blog").isPrefixOf kv.1 = false)
        ∧ (∀ kv ∈ st'.entries,
            kv ∈ ({ indexes := [⟨"chevy_docs", 1536⟩],
                    entries := [("blog:1", "x"), ("other:1", "y")] } : StoreState).entries)
        ∧ st'.hasIndex "chevy_docs" = true)
      ∧ createIndex
          { indexes := [⟨"chevy_docs", 1536⟩],
            entries := [("blog:1", "x"), ("other:1", "y")] }
          "chevy_docs" "blog" 1536 false = .error .indexExistsError) :=
  ⟨by decide,
    create_index_overwrite
      { indexes := [⟨"chevy_docs", 1536⟩],
        entries := [("blog:1", "x"), ("other:1", "y")] }
      "chevy_docs" "blog" 1536 (by decide)⟩

/-- Arithmetic mean of a list of rationals (0 for the empty list, by the
convention that division by zero is zero). -/
def mean (xs : List ℚ) : ℚ := xs.sum / (xs.length : ℚ)

theorem sum_bounds_of_unit (xs : List ℚ) (h : ∀ x ∈ xs, 0 ≤ x ∧ x ≤ 1) :
    0 ≤ xs.sum ∧ xs.sum ≤ (xs.length : ℚ) := by
  induction xs with
  | nil => simp
  | cons a t ih =>
    have ha := h a (List.mem_cons_self a t)
    have ht := ih (fun x hx => h x (List.mem_cons_of_mem a hx))
    refine ⟨by simpa using add_nonneg ha.1 ht.1, ?_⟩
    simp only [List.sum_cons, List.length_cons]
    push_cast
    linarith [ha.2, ht.2]

theorem mean_mem_unit (xs : List ℚ) (h : ∀ x ∈ xs, 0 ≤ x ∧ x ≤ 1) :
    0 ≤ mean xs ∧ mean xs ≤ 1 := by
  obtain ⟨h0, h1⟩ := sum_bounds_of_unit xs h
  rcases List.eq_nil_or_concat xs with hnil | ⟨l, a, rfl⟩
  · subst hnil
    simp [mean]
  · have hlen : (0 : ℚ) < ((l.concat a).length : ℚ) := by
      simp only [List.length_concat]
      push_cast
      positivity
    constructor
    · exact div_nonneg h0 (le_of_lt hlen)
    · rw [mean, div_le_one hlen]
      exact h1

/-- Modelled from the spec: the scoring provider behind the Feedback
Evaluator (the implementation lives in the trulens library, not in this
repository), an opaque triple of scoring functions. -/
structure ScoreProvider where
  relevance : String → String → ℚ
  qs_relevance : String → String → ℚ
  grounded : List String → String → ℚ

/-- The provider contract: every score it produces lies in `[0, 1]`. -/
def ScoreProvider.InUnit (P : ScoreProvider) : Prop :=
  (∀ q a, 0 ≤ P.relevance q a ∧ P.relevance q a ≤ 1)
  ∧ (∀ q c, 0 ≤ P.qs_relevance q c ∧ P.qs_relevance q c ≤ 1)
  ∧ (∀ cs a, 0 ≤ P.grounded cs a ∧ P.grounded cs a ≤ 1)

/-- The three scores of a Feedback Record. -/
structure FeedbackScores where
  relevance : ℚ
  groundedness : ℚ
  context_relevance : ℚ

/-- Modelled from the spec: the Feedback Evaluator's
`score(question, contexts, answer)`.  Relevance judges (question, answer),
groundedness judges (contexts, answer), and context relevance is the
arithmetic mean of the per-context scores. -/
def FeedbackEvaluator.score (P : ScoreProvider) (question : String)
    (contexts : List String) (answer : String) : FeedbackScores :=
  { relevance := P.relevance question answer
    groundedness := P.grounded contexts answer
    context_relevance := mean (contexts.map (P.qs_relevance question)) }

/-- **C7.** For every (question, contexts, answer) triple and every provider
meeting its `[0,1]` contract, `context_relevance` equals the arithmetic mean
of the per-context scores, and all three returned scores lie in `[0,1]`. -/
theorem feedback_scores_spec (P : ScoreProvider) (hP : P.InUnit)
    (question : String) (contexts : List String) (answer : String) :
    (FeedbackEvaluator.score P question contexts answer).context_relevance
      = mean (contexts.map (P.qs_relevance question))
    ∧ (0 ≤ (FeedbackEvaluator.score P question contexts answer).relevance
        ∧ (FeedbackEvaluator.score P question contexts answer).relevance ≤ 1)
    ∧ (0 ≤ (FeedbackEvaluator.score P question contexts answer).groundedness
        ∧ (FeedbackEvaluator.score P question contexts answer).groundedness ≤ 1)
    ∧ (0 ≤ (FeedbackEvaluator.score P question contexts answer).context_relevance
        ∧ (FeedbackEvaluator.score P question contexts answer).context_relevance ≤ 1) := by
  obtain ⟨hr, hq, hg⟩ := hP
  refine ⟨rfl, hr question answer, hg contexts answer, ?_⟩
  apply mean_mem_unit
  intro x hx
  obtain ⟨c, _, rfl⟩ := List.mem_map.mp hx
  exact hq question c

/-- Witness for C7 at a constant provider scoring everything `1/2`. -/
theorem feedback_scores_spec_witness :
    (⟨fun _ _ => 1/2, fun _ _ => 1/2, fun _ _ => 1/2⟩ : ScoreProvider).InUnit
    ∧ (0 ≤ (FeedbackEvaluator.score
          ⟨fun _ _ => 1/2, fun _ _ => 1/2, fun _ _ => 1/2⟩ "q" ["c1", "c2"] "a").context_relevance
        ∧ (FeedbackEvaluator.score
            ⟨fun _ _ => 1/2, fun _ _ => 1/2, fun _ _ => 1/2⟩ "q" ["c1", "c2"] "a").context_relevance
          ≤ 1) :=
  ⟨⟨fun _ _ => by norm_num, fun _ _ => by norm_num, fun _ _ => by norm_num⟩,
    (feedback_scores_spec ⟨fun _ _ => 1/2, fun _ _ => 1/2, fun _ _ => 1/2⟩
      ⟨fun _ _ => by norm_num, fun _ _ => by norm_num, fun _ _ => by norm_num⟩
      "q" ["c1", "c2"] "a").2.2.2⟩

/-- The notebook's evaluation loop (`for question in eval_questions: with
tru_recorder as recording: query_engine.query(question)`), with the query
call's outcome abstracted as a fallible function.  A `with` statement does
not suppress exceptions and the loop has no `try`, so an error stops the
loop.  Returns the questions attempted, in order, and the error that
stopped the loop, if any. -/
def evalLoop (qf : String → Except PipelineError Unit) :
    List String → List String × Option PipelineError
  | [] => ([], none)
  | x :: xs =>
    match qf x with
    | .error e => ([x], some e)
    | .ok _ =>
      let r := evalLoop qf xs
      (x :: r.1, r.2)

/-- **C8 (counterexample).** With a batch of two questions whose first query
raises, the second question is never attempted: the error does not abort
only the failing query. -/
theorem eval_loop_counterexample :
    (evalLoop
        (fun s => if s = "a" then .error .answerGenerationError else .ok ())
        ["a", "b"]).1 = ["a"]
    ∧ "b" ∉ (evalLoop
        (fun s => if s = "a" then .error .answerGenerationError else .ok ())
        ["a", "b"]).1 := by
  decide

/-- **C8 (amended).** An error raised while processing one query propagates
out of the evaluation loop and aborts the remaining batch: the queries
before the failing one and the failing one itself are attempted, the
queries after it are not, and the error surfaces from the loop. -/
theorem eval_loop_aborts (qf : String → Except PipelineError Unit)
    (pre post : List String) (x : String) (e : PipelineError)
    (hpre : ∀ y ∈ pre, qf y = .ok ())
    (hx : qf x = .error e) :
    evalLoop qf (pre ++ x :: post) = (pre ++ [x], some e) := by
  induction pre with
  | nil => simp [evalLoop, hx]
  | cons y t ih =>
    have hy := hpre y (List.mem_cons_self y t)
    simp [evalLoop, hy, ih (fun z hz => hpre z (List.mem_cons_of_mem y hz))]

/-- Witness for the amended C8: the middle query of a three-question batch
fails; the third question is not attempted. -/
theorem eval_loop_aborts_witness :
    (∀ y ∈ ["q1"],
      (fun s => if s = "q2" then (.error .answerGenerationError : Except PipelineError Unit)
        else .ok ()) y = .ok ())
    ∧ evalLoop
        (fun s => if s = "q2" then .error .answerGenerationError else .ok ())
        (["q1"] ++ "q2" :: ["q3"]) = (["q1"] ++ ["q2"], some .answerGenerationError) :=
  ⟨by
      intro y hy
      rw [List.mem_singleton] at hy
      subst hy
      simp,
    eval_loop_aborts
      (fun s => if s = "q2" then .error .answerGenerationError else .ok ())
      ["q1"] ["q3"] "q2" .answerGenerationError
      (by
        intro y hy
        rw [List.mem_singleton] at hy
        subst hy
        simp)
      (by simp)⟩

/-- The external calls a query can issue, in pipeline order. -/
inductive EngineCall where
  | embedCall (q : String)
  | searchCall
  | synthCall
deriving DecidableEq, Repr

/-- Modelled from the spec: the Query Engine's per-query state machine
(the engine implementation lives in llama_index, not in this repository):
RECEIVED rejects empty/whitespace-only input with `InvalidQueryError`;
EMBEDDED calls the embedding collaborator (retry policy folded into it);
RETRIEVED searches the Vector Store; SYNTHESIZED calls the language model,
surfacing `AnswerGenerationError` on provider failure.  Returns the outcome
and the list of external calls issued. -/
def QueryEngine.run (embed : String → Except PipelineError (List ℚ))
    (entries : List IndexEntry) (top_k : Int)
    (synth : List (IndexEntry × ℚ) → String → Except PipelineError String)
    (q : String) : Except PipelineError String × List EngineCall :=
  if q.data.all Char.isWhitespace then (.error .invalidQueryError, [])
  else
    match embed q with
    | .error e => (.error e, [.embedCall q])
    | .ok v =>
      match VectorStore.search entries v top_k with
      | .error e => (.error e, [.embedCall q, .searchCall])
      | .ok ctx =>
        match synth ctx q with
        | .error _ =>
          (.error .answerGenerationError, [.embedCall q, .searchCall, .synthCall])
        | .ok ans => (.ok ans, [.embedCall q, .searchCall, .synthCall])

/-- **C9.** Every question that is empty or whitespace-only is rejected in
the RECEIVED step with `InvalidQueryError`, before any embedding, retrieval
or synthesis call is issued. -/
theorem query_rejects_blank (embed : String → Except PipelineError (List ℚ))
    (entries : List IndexEntry) (top_k : Int)
    (synth : List (IndexEntry × ℚ) → String → Except PipelineError String)
    (q : String) (h : q.data.all Char.isWhitespace = true) :
    QueryEngine.run embed entries top_k synth q = (.error .invalidQueryError, []) := by
  simp [QueryEngine.run, h]

/-- Witness for C9 at the whitespace-only question `"  "` (the empty string
is also covered: its character list has no non-whitespace member). -/
theorem query_rejects_blank_witness :
    ("  ").data.all Char.isWhitespace = true
    ∧ QueryEngine.run (fun _ => .ok []) [] 1 (fun _ _ => .ok "") "  "
        = (.error .invalidQueryError, []) :=
  ⟨by decide, query_rejects_blank (fun _ => .ok []) [] 1 (fun _ _ => .ok "") "  " (by decide)⟩

end DocChat
